import Mathlib

/-!
Verification of the dbresolver routing, load-balancing and statement/transaction
engine (github.com/bxcodec/dbresolver).

The Go sources are shallowly embedded:
* `*sql.DB` and `*sql.Stmt` are opaque handles (`SqlDB`, `SqlStmt`) identified by ids;
  the external driver (`sql.Open`, `Prepare`, query execution) is passed in as an
  oracle function wherever an operation delegates to it.
* Go slices of pointers are `List`s; a slice of statement pointers that may contain
  nil entries is a `List (Option SqlStmt)`.
* Mutation is explicit state passing: an operation on a value with a mutable
  load-balancer returns the chosen handle together with the updated value.
* A runtime panic (index out of range, nil dereference) is `none`.
* Machine counters (`uint64`) are `Nat` taken modulo `2 ^ 64`.
* Operations whose only routing-relevant effect is the choice of a physical handle
  (Query, Exec, Begin, ...) are modelled by the handle they dispatch to.
-/

namespace dbresolver

/-- Model of a physical `*sql.DB` handle: an opaque identity plus the opaque values
returned by its `Driver()` and `Stats()` accessors. -/
structure SqlDB where
  id : Nat
  driver : Nat
  stats : Nat
deriving DecidableEq, Repr

/-- Model of a physical `*sql.Stmt` prepared-statement handle. -/
structure SqlStmt where
  id : Nat
deriving DecidableEq, Repr

/-- Model of a Go `error` value, distinguishing exactly the cases the code
inspects: values implementing `net.Error`, values of type `*net.OpError`
(which also implement `net.Error`), `errors.New` strings, and other
driver-level errors. -/
inductive GoError where
  | netError : GoError
  | opError : GoError
  | errorString : List Char → GoError
  | driverError : Nat → GoError
deriving DecidableEq, Repr

/-- The type assertion `err.(net.Error)`: `*net.OpError` implements the
`net.Error` interface, so it also matches. -/
def GoError.isNetError : GoError → Bool
  | .netError => true
  | .opError => true
  | _ => false

/-- The type assertion `err.(*net.OpError)`. -/
def GoError.isOpError : GoError → Bool
  | .opError => true
  | _ => false

/-- Model of `go.uber.org/multierr` combined errors: combining one error yields
that error, combining several yields a multi-error that carries the list. -/
inductive CombinedError where
  | single : GoError → CombinedError
  | multi : List GoError → CombinedError
deriving DecidableEq, Repr

/-- `multierr.Combine` applied to a list of non-nil errors.  A nil Go error is
`none`; an empty list combines to `none`. -/
def multierrCombine (errs : List GoError) : Option CombinedError :=
  match errs with
  | [] => none
  | [e] => some (.single e)
  | es => some (.multi es)

/-- The component errors carried by a combined error (empty for `nil`). -/
def CombinedError.components : Option CombinedError → List GoError
  | none => []
  | some (.single e) => [e]
  | some (.multi es) => es

/-- Embedding of `doParallely` (helper.go / part_004): run `fn` for every index
in `[0, n)`, collect the non-nil errors and combine them with
`multierr.Combine`.  The Go workers run concurrently and feed one channel; the
collection order is scheduler dependent, and this model fixes the index order
(the claims about `doParallely` are insensitive to the order). -/
def doParallely (n : Nat) (fn : Nat → Option GoError) : Option CombinedError :=
  multierrCombine ((List.range n).filterMap fn)

/-- Embedding of `isDBConnectionError` (part_004): a nil error matches no type
assertion; otherwise the two assertions are tried in order. -/
def isDBConnectionError : Option GoError → Bool
  | none => false
  | some e => if e.isNetError then true else if e.isOpError then true else false

/-- Go `QueryType` (part_000). -/
inductive QueryType where
  | unknown : QueryType
  | read : QueryType
  | write : QueryType
deriving DecidableEq, Repr

/-- `strings.ToUpper` on the ASCII fragment the classifier cares about; query
strings are modelled as `List Char`. -/
def goToUpper (s : List Char) : List Char := s.map Char.toUpper

/-- `strings.Contains s substr`. -/
def goContains (s substr : List Char) : Bool := decide (List.IsInfix substr s)

/-- Embedding of `DefaultQueryTypeChecker.Check` (part_000): uppercase the query
and look for the literal substring `RETURNING`; a hit yields `Write`, otherwise
`Unknown`. -/
def DefaultQueryTypeChecker.Check (query : List Char) : QueryType :=
  if goContains (goToUpper query) ("RETURNING".toList) then .write else .unknown

/-- `2 ^ 64`, the modulus of Go's `uint64` counters. -/
def UINT64_MOD : Nat := 2 ^ 64

/-- Embedding of `RoundRobinLoadBalancer.roundRobin` (loadbalancer.go): for
`n ≤ 1` short-circuit to index `0` without touching the counter; otherwise
atomically advance the counter and return `(new counter) mod n`.  Returns the
index together with the new counter value. -/
def roundRobin (counter n : Nat) : Nat × Nat :=
  if n ≤ 1 then (0, counter)
  else
    let c := (counter + 1) % UINT64_MOD
    (c % n, c)

/-- State of a load balancer (loadbalancer.go).  `roundRobinLB` carries the
`uint64` counter.  `randomLB` models the channel-based random policy: `rng k`
is the value of the `k`-th `math/rand` draw (an external oracle) and `draws`
counts the draws made; the single-slot prediction channel is filled and drained
inside the same `Resolve` call, so it is empty between calls in the sequential
semantics. -/
inductive LoadBalancer where
  | roundRobinLB : Nat → LoadBalancer
  | randomLB : (Nat → Nat) → Nat → LoadBalancer

/-- Embedding of `Resolve` for both policies.  Round-robin indexes with
`roundRobin`; the random policy draws `rand.Intn n` (modelled as `rng k % n`,
and `rand.Intn 0` panics).  Indexing an empty slice panics: `none`. -/
def LoadBalancer.Resolve {T : Type} (lb : LoadBalancer) (dbs : List T) :
    Option T × LoadBalancer :=
  match lb with
  | .roundRobinLB c =>
    let p := roundRobin c dbs.length
    (dbs[p.1]?, .roundRobinLB p.2)
  | .randomLB rng k =>
    if dbs.length = 0 then (none, .randomLB rng k)
    else (dbs[rng k % dbs.length]?, .randomLB rng (k + 1))

/-- `k` successive `Resolve` calls on the same list, returning the chosen
handles in order together with the final balancer state. -/
def lbIterate {T : Type} (lb : LoadBalancer) (dbs : List T) :
    Nat → List (Option T) × LoadBalancer
  | 0 => ([], lb)
  | k + 1 =>
    let r := lb.Resolve dbs
    let rest := lbIterate r.2 dbs k
    (r.1 :: rest.1, rest.2)

/-- Result of executing a query against the driver: an opaque identifier of the
returned rows plus the error slot. -/
structure QueryResult where
  rows : Nat
  err : Option GoError
deriving DecidableEq, Repr

/-- Embedding of the aggregate statement struct (stmt.go).  The Go slices
`primaryStmts`/`replicaStmts` hold `*sql.Stmt` pointers that may be nil, hence
`List (Option SqlStmt)`; `dbStmt` is the `map[*sql.DB]*sql.Stmt` as an
association list. -/
structure stmt where
  loadBalancer : LoadBalancer
  primaryStmts : List (Option SqlStmt)
  replicaStmts : List (Option SqlStmt)
  writeFlag : Bool
  dbStmt : List (SqlDB × SqlStmt)

/-- Embedding of `stmt.RWStmt`: resolve over the primary-bound statements.
The outer layer of the resolved entry is flattened: resolving from an empty
slice, or resolving to a nil slot, both leave no statement to dispatch to
(`none`, a panic at the subsequent driver call). -/
def stmt.RWStmt (s : stmt) : Option SqlStmt × stmt :=
  let r := s.loadBalancer.Resolve s.primaryStmts
  (r.1.bind id, { s with loadBalancer := r.2 })

/-- Embedding of `stmt.ROStmt`: when every statement is primary-bound
(`totalStmtsConn == len(primaryStmts)`), resolve over the primaries, otherwise
over the replica-bound statements. -/
def stmt.ROStmt (s : stmt) : Option SqlStmt × stmt :=
  let totalStmtsConn := s.replicaStmts.length + s.primaryStmts.length
  if totalStmtsConn = s.primaryStmts.length then
    let r := s.loadBalancer.Resolve s.primaryStmts
    (r.1.bind id, { s with loadBalancer := r.2 })
  else
    let r := s.loadBalancer.Resolve s.replicaStmts
    (r.1.bind id, { s with loadBalancer := r.2 })

/-- Embedding of `stmt.ExecContext`: dispatch to `RWStmt()`.  The operation is
modelled by the underlying statement it dispatches to. -/
def stmt.ExecContext (s : stmt) : Option SqlStmt × stmt := s.RWStmt

/-- `stmt.Exec` delegates to `ExecContext` with the background context. -/
def stmt.Exec (s : stmt) : Option SqlStmt × stmt := s.ExecContext

/-- Embedding of `stmt.QueryContext`: pick `RWStmt` under the write flag,
otherwise `ROStmt`; run the query; if the error is a connection error and the
write flag is unset, retry once on `RWStmt` and return that second result.
`run` is the driver oracle.  The model returns the final result together with
the sequence of underlying statements dispatched to (`none` models the panic
of invoking a missing statement). -/
def stmt.QueryContext (s : stmt) (run : SqlStmt → QueryResult) :
    Option (QueryResult × List SqlStmt) × stmt :=
  let first := if s.writeFlag then s.RWStmt else s.ROStmt
  match first with
  | (none, s1) => (none, s1)
  | (some curStmt, s1) =>
    let res := run curStmt
    if isDBConnectionError res.err && !s.writeFlag then
      match s1.RWStmt with
      | (none, s2) => (none, s2)
      | (some rw, s2) => (some (run rw, [curStmt, rw]), s2)
    else (some (res, [curStmt]), s1)

/-- `stmt.Query` delegates to `QueryContext` with the background context. -/
def stmt.Query (s : stmt) (run : SqlStmt → QueryResult) :
    Option (QueryResult × List SqlStmt) × stmt := s.QueryContext run

/-- Embedding of `stmt.QueryRowContext`: the same routing policy as
`QueryContext`, with the connection-error test driven by the deferred error of
the returned row (`row.Err()`, the `err` component of the oracle's answer). -/
def stmt.QueryRowContext (s : stmt) (run : SqlStmt → QueryResult) :
    Option (QueryResult × List SqlStmt) × stmt :=
  let first := if s.writeFlag then s.RWStmt else s.ROStmt
  match first with
  | (none, s1) => (none, s1)
  | (some curStmt, s1) =>
    let row := run curStmt
    if isDBConnectionError row.err && !s.writeFlag then
      match s1.RWStmt with
      | (none, s2) => (none, s2)
      | (some rw, s2) => (some (run rw, [curStmt, rw]), s2)
    else (some (row, [curStmt]), s1)

/-- `stmt.QueryRow` delegates to `QueryRowContext`. -/
def stmt.QueryRow (s : stmt) (run : SqlStmt → QueryResult) :
    Option (QueryResult × List SqlStmt) × stmt := s.QueryRowContext run

/-- Embedding of `stmt.stmtForDB`: look the handle up in the `dbStmt` map; on a
miss fall back to `RWStmt()` so the caller's driver call surfaces the mismatch. -/
def stmt.stmtForDB (s : stmt) (db : SqlDB) : Option SqlStmt × stmt :=
  match s.dbStmt.lookup db with
  | some xsm => (some xsm, s)
  | none => s.RWStmt

/-- Embedding of `newSingleDBStmt` (stmt.go): a statement over a single DB
connection, as returned by transactions and connections. -/
def newSingleDBStmt (sourceDB : SqlDB) (st : SqlStmt) (writeFlag : Bool) : stmt :=
  { loadBalancer := .roundRobinLB 0
    primaryStmts := [some st]
    replicaStmts := []
    dbStmt := [(sourceDB, st)]
    writeFlag := writeFlag }

/-- Embedding of the resolver struct `sqlDB` (part_032): the logical database.
`queryTypeChecker` is the classifier stored by the `New` constructor
(part_025); no operation of part_032 reads it. -/
structure sqlDB where
  primaries : List SqlDB
  replicas : List SqlDB
  totalConnection : Nat
  loadBalancer : LoadBalancer
  stmtLoadBalancer : LoadBalancer
  queryTypeChecker : List Char → QueryType

/-- Embedding of `sqlDB.ReadOnly`: when `totalConnection` equals the number of
primaries, resolve over the primaries, otherwise over the replicas. -/
def sqlDB.ReadOnly (db : sqlDB) : Option SqlDB × sqlDB :=
  if db.totalConnection = db.primaries.length then
    let r := db.loadBalancer.Resolve db.primaries
    (r.1, { db with loadBalancer := r.2 })
  else
    let r := db.loadBalancer.Resolve db.replicas
    (r.1, { db with loadBalancer := r.2 })

/-- Embedding of `sqlDB.ReadWrite`: resolve over the primaries. -/
def sqlDB.ReadWrite (db : sqlDB) : Option SqlDB × sqlDB :=
  let r := db.loadBalancer.Resolve db.primaries
  (r.1, { db with loadBalancer := r.2 })

/-- `sqlDB.Query` dispatches to `ReadOnly()`; the query string plays no role in
the routing decision.  The operation is modelled by the physical handle it
dispatches to. -/
def sqlDB.Query (db : sqlDB) (query : List Char) : Option SqlDB × sqlDB :=
  let _ := query
  db.ReadOnly

/-- `sqlDB.QueryContext` dispatches to `ReadOnly()`. -/
def sqlDB.QueryContext (db : sqlDB) (query : List Char) : Option SqlDB × sqlDB :=
  db.Query query

/-- `sqlDB.QueryRow` dispatches to `ReadOnly()`. -/
def sqlDB.QueryRow (db : sqlDB) (query : List Char) : Option SqlDB × sqlDB :=
  db.Query query

/-- `sqlDB.QueryRowContext` dispatches to `ReadOnly()`. -/
def sqlDB.QueryRowContext (db : sqlDB) (query : List Char) : Option SqlDB × sqlDB :=
  db.Query query

/-- `sqlDB.Exec` dispatches to `ReadWrite()`. -/
def sqlDB.Exec (db : sqlDB) (query : List Char) : Option SqlDB × sqlDB :=
  let _ := query
  db.ReadWrite

/-- `sqlDB.ExecContext` dispatches to `ReadWrite()`. -/
def sqlDB.ExecContext (db : sqlDB) (query : List Char) : Option SqlDB × sqlDB :=
  db.Exec query

/-- `sqlDB.Begin` starts the transaction on `ReadWrite()`. -/
def sqlDB.Begin (db : sqlDB) : Option SqlDB × sqlDB := db.ReadWrite

/-- `sqlDB.BeginTx` starts the transaction on `ReadWrite()`. -/
def sqlDB.BeginTx (db : sqlDB) : Option SqlDB × sqlDB := db.ReadWrite

/-- `sqlDB.Conn` takes a connection from the pool of `db.primaries[0]`;
modelled by the handle whose pool is used (`none` when the slice is empty:
index-out-of-range panic). -/
def sqlDB.Conn (db : sqlDB) : Option SqlDB := db.primaries[0]?

/-- `sqlDB.Stats` returns `db.primaries[0].Stats()`. -/
def sqlDB.Stats (db : sqlDB) : Option Nat := (db.primaries[0]?).map SqlDB.stats

/-- `sqlDB.Driver` returns `db.ReadWrite().Driver()` — the driver of a
load-balanced primary, not necessarily of the first one. -/
def sqlDB.Driver (db : sqlDB) : Option Nat × sqlDB :=
  let r := db.ReadWrite
  ((r.1).map SqlDB.driver, r.2)

/-- The work done for index `i` of the `Prepare` fan-out: prepare on
`primaries[i]` when `i < len(primaries)`, otherwise on
`replicas[i - len(primaries)]`.  `prep` is the per-handle driver oracle;
`none` means the index falls outside both slices, which panics the worker. -/
def sqlDB.prepareEach (db : sqlDB) (prep : SqlDB → Except GoError SqlStmt)
    (i : Nat) : Option (Except GoError SqlStmt) :=
  if i < db.primaries.length then (db.primaries[i]?).map prep
  else (db.replicas[i - db.primaries.length]?).map prep

/-- Embedding of `sqlDB.Prepare` (part_032): fan out `doParallely` over
`totalConnection` workers; on any sub-error return `(nil, err)`; otherwise
return the aggregate statement whose slot `i` holds the statement prepared by
worker `i` (a slot whose worker never ran — possible only when
`totalConnection` undercounts the handles — keeps its nil zero value).  The
whole call panics (`none`) when a worker index falls outside both slices.
The Go literal sets only `db` and `loadBalancer`, so `writeFlag` and `dbStmt`
keep their zero values. -/
def sqlDB.Prepare (db : sqlDB) (prep : SqlDB → Except GoError SqlStmt) :
    Option (Option stmt × Option CombinedError) :=
  if db.primaries.length + db.replicas.length < db.totalConnection then none
  else
    let err := doParallely db.totalConnection (fun i =>
      match db.prepareEach prep i with
      | some (.error e) => some e
      | _ => none)
    match err with
    | some e => some (none, some e)
    | none =>
      some (some
        { loadBalancer := db.stmtLoadBalancer
          primaryStmts := (List.range db.primaries.length).map (fun i =>
            if i < db.totalConnection then
              ((db.primaries[i]?).map prep).bind Except.toOption
            else none)
          replicaStmts := (List.range db.replicas.length).map (fun j =>
            if db.primaries.length + j < db.totalConnection then
              ((db.replicas[j]?).map prep).bind Except.toOption
            else none)
          writeFlag := false
          dbStmt := [] }, none)

/-- `sqlDB.PrepareContext` is the same fan-out as `Prepare`, the context being
used only for the driver-level preparation (part of the oracle). -/
def sqlDB.PrepareContext (db : sqlDB) (prep : SqlDB → Except GoError SqlStmt) :
    Option (Option stmt × Option CombinedError) :=
  db.Prepare prep

/-- Go `LoadBalancerPolicy` constants (options.go). -/
inductive LoadBalancerPolicy where
  | RoundRobinLB : LoadBalancerPolicy
  | RandomLB : LoadBalancerPolicy
deriving DecidableEq, Repr

/-- Embedding of the `Option` configuration bundle (options.go; named
`Options` here because `Option` is taken by Lean).  `QueryTypeChecker` is the
classifier slot read by the `New` constructor (part_025). -/
structure Options where
  PrimaryDBs : List SqlDB
  ReplicaDBs : List SqlDB
  StmtLB : LoadBalancer
  DBLB : LoadBalancer
  QueryTypeChecker : List Char → QueryType

/-- `defaultOption`: round-robin balancers (zero counters), empty handle
lists, default classifier. -/
def defaultOption : Options :=
  { PrimaryDBs := []
    ReplicaDBs := []
    DBLB := .roundRobinLB 0
    StmtLB := .roundRobinLB 0
    QueryTypeChecker := DefaultQueryTypeChecker.Check }

/-- `WithPrimaryDBs` option setter. -/
def WithPrimaryDBs (primaryDBs : List SqlDB) : Options → Options :=
  fun opt => { opt with PrimaryDBs := primaryDBs }

/-- `WithReplicaDBs` option setter. -/
def WithReplicaDBs (replicaDBs : List SqlDB) : Options → Options :=
  fun opt => { opt with ReplicaDBs := replicaDBs }

/-- `WithLoadBalancer` option setter.  The Go `RANDOM` branch installs
zero-value `RandomLoadBalancer`s that draw from the package-global `math/rand`
source; the draw stream is supplied here as the oracle `rng`.  An unknown
policy matches no switch case and leaves the bundle unchanged. -/
def WithLoadBalancer (lb : LoadBalancerPolicy) (rng : Nat → Nat) :
    Options → Options := fun opt =>
  match lb with
  | .RoundRobinLB => { opt with DBLB := .roundRobinLB 0, StmtLB := .roundRobinLB 0 }
  | .RandomLB => { opt with DBLB := .randomLB rng 0, StmtLB := .randomLB rng 0 }

/-- Embedding of `New` (part_025): fold the option functions over
`defaultOption`, panic (`none`) when no primary is configured, and otherwise
build the resolver.  The Go composite literal does not mention
`totalConnection`, so that field keeps its zero value `0`. -/
def New (opts : List (Options → Options)) : Option sqlDB :=
  let opt := opts.foldl (fun o optFunc => optFunc o) defaultOption
  if opt.PrimaryDBs.length = 0 then none
  else some
    { primaries := opt.PrimaryDBs
      replicas := opt.ReplicaDBs
      totalConnection := 0
      loadBalancer := opt.DBLB
      stmtLoadBalancer := opt.StmtLB
      queryTypeChecker := opt.QueryTypeChecker }

/-- Embedding of `Open` (part_032): split the DSN list on `';'`, reject an
empty list, then open every DSN (worker 0 fills the single primary slot, the
others the replica slots).  `sqlOpen` is the `sql.Open` oracle.  Like the Go
function, a failed fan-out still returns the partially built resolver next to
the combined error; a slot whose open failed holds a nil pointer in Go and is
dropped from the model's lists. -/
def Open (sqlOpen : List Char → Except GoError SqlDB)
    (dataSourceNames : List Char) : Option sqlDB × Option CombinedError :=
  let conns := dataSourceNames.splitOn ';'
  if conns.length = 0 then
    (none, some (.single (.errorString ("invalid data source name".toList))))
  else
    let opt := defaultOption
    let results := conns.map sqlOpen
    let errs := results.filterMap (fun r =>
      match r with
      | .error e => some e
      | .ok _ => none)
    let db : sqlDB :=
      { primaries := (results.take 1).filterMap Except.toOption
        replicas := (results.drop 1).filterMap Except.toOption
        totalConnection := conns.length
        loadBalancer := opt.DBLB
        stmtLoadBalancer := opt.StmtLB
        queryTypeChecker := opt.QueryTypeChecker }
    (some db, multierrCombine errs)

/-- Embedding of `OpenMultiPrimary` (part_032): split both DSN lists on `';'`
and reject an empty primary list.  Every primary worker writes its result into
`primaries[0]` (the Go code indexes slot 0 for every `i`); under the
sequential index-order schedule the last write wins and the remaining primary
slots keep their nil zero values, which the model drops. -/
def OpenMultiPrimary (sqlOpen : List Char → Except GoError SqlDB)
    (primaryDataSourceNames readOnlyDataSourceNames : List Char) :
    Option sqlDB × Option CombinedError :=
  let primaryConns := primaryDataSourceNames.splitOn ';'
  let readOnlyConns := readOnlyDataSourceNames.splitOn ';'
  if primaryConns.length = 0 then
    (none, some (.single (.errorString ("require primary data source name".toList))))
  else
    let opt := defaultOption
    let primaryResults := primaryConns.map sqlOpen
    let roResults := readOnlyConns.map sqlOpen
    let errs := (primaryResults ++ roResults).filterMap (fun r =>
      match r with
      | .error e => some e
      | .ok _ => none)
    let db : sqlDB :=
      { primaries :=
          match primaryResults.getLast? with
          | some (.ok d) => [d]
          | _ => []
        replicas := roResults.filterMap Except.toOption
        totalConnection := primaryConns.length + readOnlyConns.length
        loadBalancer := opt.DBLB
        stmtLoadBalancer := opt.StmtLB
        queryTypeChecker := opt.QueryTypeChecker }
    (some db, multierrCombine errs)

/-- Embedding of the transaction wrapper `tx` (tx.go): the physical primary
the transaction was begun on.  The driver transaction handle is opaque; each
operation that uses it takes a driver oracle. -/
structure tx where
  sourceDB : SqlDB
deriving DecidableEq, Repr

/-- Embedding of `tx.PrepareContext` (tx.go): prepare on the driver
transaction (`txPrep` oracle); on success wrap the transaction-scoped
statement in an aggregate statement over that single statement, keyed by the
transaction's source handle.  The Go composite literal sets `db`,
`loadBalancer`, `primaryStmts` and `dbStmt` only, so `writeFlag` keeps its
zero value `false`. -/
def tx.PrepareContext (t : tx) (txPrep : Except GoError SqlStmt) :
    Except GoError stmt :=
  match txPrep with
  | .error e => .error e
  | .ok txstmt =>
    .ok { loadBalancer := .roundRobinLB 0
          primaryStmts := [some txstmt]
          replicaStmts := []
          writeFlag := false
          dbStmt := [(t.sourceDB, txstmt)] }

/-- `tx.Prepare` delegates to `PrepareContext` with the background context. -/
def tx.Prepare (t : tx) (txPrep : Except GoError SqlStmt) : Except GoError stmt :=
  t.PrepareContext txPrep

/-- Embedding of `tx.StmtContext` (tx.go): fetch the underlying statement for
the transaction's handle via `stmtForDB`, rebind it to the transaction through
the driver (`txBind` oracle, Go `t.tx.StmtContext`), and wrap the result in a
new single-statement aggregate.  Passing a nil statement to the driver panics
(`none`).  As in `PrepareContext`, `writeFlag` keeps its zero value. -/
def tx.StmtContext (t : tx) (s : stmt) (txBind : SqlStmt → SqlStmt) :
    Option stmt :=
  let p := s.stmtForDB t.sourceDB
  match p.1 with
  | none => none
  | some base =>
    some { loadBalancer := .roundRobinLB 0
           primaryStmts := [some (txBind base)]
           replicaStmts := []
           writeFlag := false
           dbStmt := [(t.sourceDB, txBind base)] }

/-- `tx.Stmt` delegates to `StmtContext` with the background context. -/
def tx.Stmt (t : tx) (s : stmt) (txBind : SqlStmt → SqlStmt) : Option stmt :=
  t.StmtContext s txBind

/-- Embedding of the connection wrapper `conn` (conn.go): a pooled connection
pinned to one physical primary. -/
structure conn where
  sourceDB : SqlDB
deriving DecidableEq, Repr

/-- Embedding of `conn.PrepareContext` (conn.go): prepare on the pinned
connection (`connPrep` oracle); on success the write flag is the result of
uppercasing the query and searching for `RETURNING`, and the statement is the
single-DB aggregate built by `newSingleDBStmt`. -/
def conn.PrepareContext (c : conn) (connPrep : Except GoError SqlStmt)
    (query : List Char) : Except GoError stmt :=
  match connPrep with
  | .error e => .error e
  | .ok pstmt =>
    let _query := goToUpper query
    let writeFlag := goContains _query ("RETURNING".toList)
    .ok (newSingleDBStmt c.sourceDB pstmt writeFlag)

/-! Helper lemmas about the load balancer. -/

/-- The round-robin index is always within bounds for a non-empty list. -/
theorem roundRobin_fst_lt (c n : Nat) (h : 1 ≤ n) : (roundRobin c n).1 < n := by
  unfold roundRobin
  split
  · simpa using h
  · exact Nat.mod_lt _ (by omega)

/-- Any handle returned by `Resolve` is a member of the offered list. -/
theorem LoadBalancer.resolve_mem {T : Type} (lb : LoadBalancer) (dbs : List T)
    (r : T) (h : (lb.Resolve dbs).1 = some r) : r ∈ dbs := by
  cases lb with
  | roundRobinLB c =>
    simp only [LoadBalancer.Resolve] at h
    exact List.getElem?_mem h
  | randomLB rng k =>
    simp only [LoadBalancer.Resolve] at h
    split at h
    · simp at h
    · exact List.getElem?_mem h

/-- On a non-empty list, the round-robin balancer always resolves a handle. -/
theorem rr_resolve_some {T : Type} (c : Nat) (dbs : List T) (h : dbs ≠ []) :
    ∃ r, ((LoadBalancer.roundRobinLB c).Resolve dbs).1 = some r := by
  have hlen : 1 ≤ dbs.length := by
    cases dbs with
    | nil => simp at h
    | cons a l => simp
  have hlt := roundRobin_fst_lt c dbs.length hlen
  simp only [LoadBalancer.Resolve]
  exact ⟨_, List.getElem?_eq_getElem hlt⟩

/-- Round-robin resolution over a non-empty list of non-nil statement slots
produces a statement that is one of the slots. -/
theorem rr_resolve_bind_some (c : Nat) (l : List (Option SqlStmt)) (h : l ≠ [])
    (hall : ∀ x ∈ l, x.isSome) :
    ∃ st, ((LoadBalancer.roundRobinLB c).Resolve l).1.bind id = some st ∧
      some st ∈ l := by
  obtain ⟨r, hr⟩ := rr_resolve_some c l h
  have hmem := LoadBalancer.resolve_mem _ _ _ hr
  obtain ⟨st, rfl⟩ := Option.isSome_iff_exists.mp (hall r hmem)
  exact ⟨st, by simp [hr], hmem⟩

/-- Mod and div of a successor, split on whether the residue wraps. -/
theorem succ_mod_div (K N : Nat) (hN : 0 < N) :
    ((K + 1) % N = if K % N + 1 = N then 0 else K % N + 1) ∧
    ((K + 1) / N = if K % N + 1 = N then K / N + 1 else K / N) := by
  have h0 := Nat.div_add_mod K N
  have h1 : K % N < N := Nat.mod_lt _ hN
  by_cases hc : K % N + 1 = N
  · have hK : K + 1 = N * (K / N + 1) := by
      rw [Nat.mul_add, Nat.mul_one]
      omega
    refine ⟨?_, ?_⟩
    · rw [hK]
      simp [hc, Nat.mul_mod_right]
    · rw [hK, Nat.mul_div_cancel_left _ hN]
      simp [hc]
  · have hK : K + 1 = N * (K / N) + (K % N + 1) := by omega
    have hlt : K % N + 1 < N := by omega
    refine ⟨?_, ?_⟩
    · rw [hK, Nat.mul_add_mod, Nat.mod_eq_of_lt hlt]
      simp [hc]
    · rw [hK, Nat.mul_add_div hN, Nat.div_eq_of_lt hlt]
      simp [hc]

/-- How often residue `i` occurs among `(k + 1) % N` for `k < K`. -/
theorem count_succ_mod_range (N i : Nat) (hN : 1 ≤ N) (hi : i < N) (K : Nat) :
    ((List.range K).map (fun k => (k + 1) % N)).count i
      = K / N + (if 1 ≤ i ∧ i ≤ K % N then 1 else 0) := by
  induction K with
  | zero =>
    simp only [List.range_zero, List.map_nil, List.count_nil, Nat.zero_div,
      Nat.zero_mod, Nat.zero_add]
    split
    · omega
    · rfl
  | succ K ih =>
    rw [List.range_succ K, List.map_append, List.count_append, ih]
    have hsingle : ((List.map (fun k => (k + 1) % N) [K]).count i)
        = if (K + 1) % N = i then 1 else 0 := by
      simp [List.count_singleton']
    rw [hsingle]
    obtain ⟨hm, hd⟩ := succ_mod_div K N (by omega)
    rw [hm, hd]
    have hrlt : K % N < N := Nat.mod_lt _ (by omega)
    split_ifs <;> omega

/-- With at least two handles, iterated round-robin resolution walks the
counter from `c` to `c + K` and picks index `(counter) mod N` at each step. -/
theorem lbIterate_rr_ge_two {T : Type} (dbs : List T) (h2 : 2 ≤ dbs.length)
    (K c : Nat) (hc : c + K < UINT64_MOD) :
    lbIterate (.roundRobinLB c) dbs K
      = ((List.range K).map (fun k => dbs[(c + k + 1) % dbs.length]?),
         .roundRobinLB (c + K)) := by
  induction K generalizing c with
  | zero => simp [lbIterate]
  | succ K ih =>
    have hstep : (LoadBalancer.roundRobinLB c).Resolve dbs
        = (dbs[(c + 1) % dbs.length]?, .roundRobinLB (c + 1)) := by
      simp only [LoadBalancer.Resolve, roundRobin]
      rw [if_neg (by omega : ¬ dbs.length ≤ 1),
        Nat.mod_eq_of_lt (show c + 1 < UINT64_MOD by omega)]
    rw [lbIterate, hstep, ih (c + 1) (by omega)]
    refine Prod.ext ?_ ?_
    · show dbs[(c + 1) % dbs.length]?
          :: (List.range K).map (fun k => dbs[(c + 1 + k + 1) % dbs.length]?)
        = (List.range (K + 1)).map (fun k => dbs[(c + k + 1) % dbs.length]?)
      rw [List.range_succ_eq_map K, List.map_cons, List.map_map]
      congr 1
      apply List.map_congr_left
      intro k hk
      simp only [Function.comp]
      congr 2
      omega
    · show LoadBalancer.roundRobinLB (c + 1 + K) = .roundRobinLB (c + (K + 1))
      congr 1
      omega

/-- With at most one handle, round-robin resolution short-circuits to index 0
and never touches the counter. -/
theorem lbIterate_rr_le_one {T : Type} (dbs : List T) (h1 : dbs.length ≤ 1)
    (K c : Nat) :
    lbIterate (.roundRobinLB c) dbs K
      = (List.replicate K dbs[0]?, .roundRobinLB c) := by
  induction K with
  | zero => simp [lbIterate]
  | succ K ih =>
    have hstep : (LoadBalancer.roundRobinLB c).Resolve dbs
        = (dbs[0]?, .roundRobinLB c) := by
      simp only [LoadBalancer.Resolve, roundRobin]
      rw [if_pos h1]
    rw [lbIterate, hstep, ih]
    simp [List.replicate_succ]

/-- Starting from a zero counter, the `K` round-robin selections over the
handle list `0, …, N-1` are exactly `(1 mod N), (2 mod N), …, (K mod N)`. -/
theorem lbIterate_rr_selections (N K : Nat) (hN : 1 ≤ N) (hK : K < UINT64_MOD) :
    (lbIterate (.roundRobinLB 0) (List.range N) K).1
      = (List.range K).map (fun k => some ((k + 1) % N)) := by
  by_cases h2 : 2 ≤ N
  · have hrw := lbIterate_rr_ge_two (List.range N) (by simpa using h2) K 0
      (by omega)
    rw [hrw]
    apply List.map_congr_left
    intro k hk
    have hlt : (0 + k + 1) % N < N := Nat.mod_lt _ (by omega)
    simp only [List.length_range]
    rw [List.getElem?_range hlt]
    simp
  · have hN1 : N = 1 := by omega
    subst hN1
    rw [lbIterate_rr_le_one (List.range 1) (by simp) K 0]
    have : ((fun k => some ((k + 1) % 1)) : Nat → Option Nat)
        = fun k => some 0 := by
      funext k
      simp [Nat.mod_one]
    rw [this]
    simp [List.eq_replicate_iff]

/-- Counting an element through the injection `some`. -/
theorem count_some_map (i : Nat) (l : List Nat) :
    (l.map some).count (some i) = l.count i := by
  induction l with
  | nil => simp
  | cons a l ih => simp [List.count_cons, ih]

/-- Fairness of round-robin: starting from a zero counter, over `K`
selections on `N` handles each handle is chosen `⌊K/N⌋` or `⌈K/N⌉` times. -/
theorem rr_fairness (N K i : Nat) (hN : 1 ≤ N) (hK : K < UINT64_MOD)
    (hi : i < N) :
    ((lbIterate (.roundRobinLB 0) (List.range N) K).1.count (some i) = K / N)
    ∨ ((lbIterate (.roundRobinLB 0) (List.range N) K).1.count (some i)
        = (K + N - 1) / N) := by
  rw [lbIterate_rr_selections N K hN hK]
  have hcomp : (List.range K).map (fun k => some ((k + 1) % N))
      = ((List.range K).map (fun k => (k + 1) % N)).map some := by
    rw [List.map_map]
    rfl
  rw [hcomp, count_some_map i, count_succ_mod_range N i hN hi K]
  by_cases hcase : 1 ≤ i ∧ i ≤ K % N
  · right
    have hceil : (K + N - 1) / N = K / N + 1 := by
      have h0 := Nat.div_add_mod K N
      have hrlt : K % N < N := Nat.mod_lt _ (by omega)
      have h1 : 1 ≤ K % N := le_trans hcase.1 hcase.2
      have hsplit : K + N - 1 = N * (K / N + 1) + (K % N - 1) := by
        rw [Nat.mul_add, Nat.mul_one]
        omega
      rw [hsplit, Nat.mul_add_div (show 0 < N by omega),
        Nat.div_eq_of_lt (show K % N - 1 < N by omega)]
    rw [if_pos hcase, hceil]
  · left
    rw [if_neg hcase]
    omega

/-! Claim theorems. -/

/-- C1: contrary to the claim, a resolver built by the `New` constructor with
one primary and zero replicas does not dispatch reads to a primary.  `New`
leaves `totalConnection` at its zero value, so `ReadOnly` compares `0` with
the primary count, takes the replica branch, and resolves over the empty
replica slice: the dispatch panics (`none`) instead of reaching some primary.
This evaluates the code at the failing input (GitHub issue 44; `TestIssue44`
in part_027 expects such a read to succeed). -/
theorem C1_new_zero_replica_read_panics :
    ∃ db, New [WithPrimaryDBs [⟨0, 0, 0⟩]] = some db ∧
      db.replicas = [] ∧ db.primaries.length = 1 ∧
      (db.Query ("SELECT 1".toList)).1 = none ∧
      (db.QueryRow ("SELECT 1".toList)).1 = none := by
  exact ⟨_, rfl, rfl, rfl, rfl, rfl⟩

/-- C2: the write-class operations `Exec`, `ExecContext`, `Begin` and
`BeginTx` are all the single dispatch `ReadWrite()`, which offers only the
primary list to the handle load balancer, so every dispatched handle is a
member of the primary list and (for disjoint handle sets) never a replica;
with the default round-robin balancer and a non-empty primary list the
dispatch always yields a handle.  Likewise the aggregate statement's
`Exec`/`ExecContext` dispatch through `RWStmt()` over the primary-bound
statements only. -/
theorem C2_write_ops_route_to_primary (db : sqlDB) (q : List Char)
    (hdisj : ∀ x ∈ db.primaries, x ∉ db.replicas) :
    (∀ h, (db.Exec q).1 = some h → h ∈ db.primaries ∧ h ∉ db.replicas) ∧
    (db.ExecContext q = db.ReadWrite ∧ db.Exec q = db.ReadWrite ∧
      db.Begin = db.ReadWrite ∧ db.BeginTx = db.ReadWrite) ∧
    (∀ c, db.loadBalancer = .roundRobinLB c → db.primaries ≠ [] →
      ∃ h, (db.Exec q).1 = some h ∧ h ∈ db.primaries) ∧
    (∀ (s : stmt) (st : SqlStmt),
      (s.ExecContext.1 = some st → some st ∈ s.primaryStmts) ∧
      s.Exec = s.RWStmt) := by
  refine ⟨?_, ⟨rfl, rfl, rfl, rfl⟩, ?_, ?_⟩
  · intro h hh
    have hmem : h ∈ db.primaries := by
      apply LoadBalancer.resolve_mem db.loadBalancer db.primaries h
      simpa [sqlDB.Exec, sqlDB.ReadWrite] using hh
    exact ⟨hmem, hdisj h hmem⟩
  · intro c hlb hne
    obtain ⟨r, hr⟩ := rr_resolve_some c db.primaries hne
    refine ⟨r, ?_, ?_⟩
    · simp [sqlDB.Exec, sqlDB.ReadWrite, hlb, hr]
    · rw [← hlb] at hr
      exact LoadBalancer.resolve_mem _ _ _ hr
  · intro s st
    refine ⟨?_, rfl⟩
    intro hst
    simp only [stmt.ExecContext, stmt.RWStmt, Option.bind_eq_some] at hst
    obtain ⟨y, hy, hid⟩ := hst
    have : y = some st := hid
    subst this
    exact LoadBalancer.resolve_mem _ _ _ hy

/-- C2 witness: a concrete resolver with one primary and one replica; the
hypotheses are discharged by computation and `Exec` dispatches to the
primary. -/
theorem C2_write_ops_route_to_primary_witness :
    (∀ x ∈ (sqlDB.mk [⟨0, 0, 0⟩] [⟨1, 0, 0⟩] 2 (.roundRobinLB 0)
        (.roundRobinLB 0) DefaultQueryTypeChecker.Check).primaries,
      x ∉ (sqlDB.mk [⟨0, 0, 0⟩] [⟨1, 0, 0⟩] 2 (.roundRobinLB 0)
        (.roundRobinLB 0) DefaultQueryTypeChecker.Check).replicas) ∧
    (∃ h, ((sqlDB.mk [⟨0, 0, 0⟩] [⟨1, 0, 0⟩] 2 (.roundRobinLB 0)
            (.roundRobinLB 0) DefaultQueryTypeChecker.Check).Exec
          ("DELETE FROM t".toList)).1 = some h ∧
      h ∈ (sqlDB.mk [⟨0, 0, 0⟩] [⟨1, 0, 0⟩] 2 (.roundRobinLB 0)
        (.roundRobinLB 0) DefaultQueryTypeChecker.Check).primaries) :=
  ⟨by decide,
    (C2_write_ops_route_to_primary
      (sqlDB.mk [⟨0, 0, 0⟩] [⟨1, 0, 0⟩] 2 (.roundRobinLB 0)
        (.roundRobinLB 0) DefaultQueryTypeChecker.Check)
      ("DELETE FROM t".toList) (by decide)).2.2.1 0 rfl (by decide)⟩

/-- C3 counterexample: the default classifier marks
`UPDATE t SET x=1 RETURNING id` as a write, yet submitting it through the
resolver's `Query` path on a resolver with one primary and one replica
dispatches it to the replica, not to a primary. -/
theorem C3_returning_query_dispatches_to_replica :
    DefaultQueryTypeChecker.Check ("UPDATE t SET x=1 RETURNING id".toList)
      = QueryType.write ∧
    ((sqlDB.mk [⟨0, 0, 0⟩] [⟨1, 0, 0⟩] 2 (.roundRobinLB 0)
        (.roundRobinLB 0) DefaultQueryTypeChecker.Check).Query
          ("UPDATE t SET x=1 RETURNING id".toList)).1 = some ⟨1, 0, 0⟩ ∧
    (⟨1, 0, 0⟩ : SqlDB) ∉
      (sqlDB.mk [⟨0, 0, 0⟩] [⟨1, 0, 0⟩] 2 (.roundRobinLB 0)
        (.roundRobinLB 0) DefaultQueryTypeChecker.Check).primaries := by
  refine ⟨by decide, by decide, by decide⟩

/-- C3 amended: the default classifier does classify every
`RETURNING`-containing string as `Write`, but the resolver's query and
query-row paths never consult the classifier: `Query`/`QueryRow` are exactly
the `ReadOnly()` dispatch, so on a resolver with a non-empty replica list
(and an accurate `totalConnection`) even a write-classified string is
dispatched to a replica chosen by the handle load balancer. -/
theorem C3_resolver_query_ignores_classifier (db : sqlDB) (q : List Char)
    (c : Nat) (hlb : db.loadBalancer = .roundRobinLB c)
    (hT : db.totalConnection = db.primaries.length + db.replicas.length)
    (hR : db.replicas ≠ [])
    (_hW : DefaultQueryTypeChecker.Check q = QueryType.write) :
    (db.Query q = db.ReadOnly ∧ db.QueryRow q = db.ReadOnly ∧
      db.QueryContext q = db.ReadOnly ∧ db.QueryRowContext q = db.ReadOnly) ∧
    ∃ h, (db.Query q).1 = some h ∧ h ∈ db.replicas := by
  refine ⟨⟨rfl, rfl, rfl, rfl⟩, ?_⟩
  have hRlen : 1 ≤ db.replicas.length := by
    cases hrep : db.replicas with
    | nil => exact absurd hrep hR
    | cons a l => simp [hrep]
  have hne : ¬ db.totalConnection = db.primaries.length := by omega
  obtain ⟨r, hr⟩ := rr_resolve_some c db.replicas hR
  refine ⟨r, ?_, ?_⟩
  · simp [sqlDB.Query, sqlDB.ReadOnly, hne, hlb, hr]
  · rw [← hlb] at hr
    exact LoadBalancer.resolve_mem _ _ _ hr

/-- C3 witness for the amended theorem: the concrete resolver of the
counterexample discharges every hypothesis and the replica `⟨1,0,0⟩` is the
dispatched handle. -/
theorem C3_resolver_query_ignores_classifier_witness :
    ((sqlDB.mk [⟨0, 0, 0⟩] [⟨1, 0, 0⟩] 2 (.roundRobinLB 0)
        (.roundRobinLB 0) DefaultQueryTypeChecker.Check).totalConnection = 2) ∧
    ∃ h, ((sqlDB.mk [⟨0, 0, 0⟩] [⟨1, 0, 0⟩] 2 (.roundRobinLB 0)
            (.roundRobinLB 0) DefaultQueryTypeChecker.Check).Query
          ("SELECT x RETURNING y".toList)).1 = some h ∧
      h ∈ (sqlDB.mk [⟨0, 0, 0⟩] [⟨1, 0, 0⟩] 2 (.roundRobinLB 0)
        (.roundRobinLB 0) DefaultQueryTypeChecker.Check).replicas :=
  ⟨rfl,
    (C3_resolver_query_ignores_classifier
      (sqlDB.mk [⟨0, 0, 0⟩] [⟨1, 0, 0⟩] 2 (.roundRobinLB 0)
        (.roundRobinLB 0) DefaultQueryTypeChecker.Check)
      ("SELECT x RETURNING y".toList) 0 rfl (by decide) (by decide)
      (by decide)).2⟩

/-- C4: on an aggregate statement with an unset write flag and a non-empty
replica-bound list, `QueryContext` first dispatches to a replica-bound
statement chosen by the statement load balancer; when that call returns a
connection-class error, it re-dispatches exactly once to a primary-bound
statement and returns that second result, and for any non-connection error
the first result is returned with no retry.  With the write flag set, the
single dispatch goes to a primary-bound statement and no retry happens even
on a connection error. -/
theorem C4_stmt_query_connection_error_fallback (s : stmt) (c : Nat)
    (run : SqlStmt → QueryResult)
    (hlb : s.loadBalancer = .roundRobinLB c)
    (hP : s.primaryStmts ≠ []) (hPsome : ∀ x ∈ s.primaryStmts, x.isSome) :
    (s.writeFlag = false → s.replicaStmts ≠ [] →
      (∀ x ∈ s.replicaStmts, x.isSome) →
      ∃ r, some r ∈ s.replicaStmts ∧ (s.ROStmt).1 = some r ∧
        ((isDBConnectionError (run r).err = true →
          ∃ w, some w ∈ s.primaryStmts ∧
            (s.QueryContext run).1 = some (run w, [r, w]) ∧
            (s.QueryRowContext run).1 = some (run w, [r, w])) ∧
         (isDBConnectionError (run r).err = false →
          (s.QueryContext run).1 = some (run r, [r]) ∧
          (s.QueryRowContext run).1 = some (run r, [r])))) ∧
    (s.writeFlag = true →
      ∃ w, some w ∈ s.primaryStmts ∧
        (s.QueryContext run).1 = some (run w, [w]) ∧
        (s.QueryRowContext run).1 = some (run w, [w])) := by
  obtain ⟨lb, ps, rs, wf, dm⟩ := s
  simp only at hlb hP hPsome ⊢
  subst hlb
  constructor
  · intro hwf hRne hRsome
    subst hwf
    have hsum : ¬ (rs.length + ps.length = ps.length) := by
      have : 1 ≤ rs.length := by
        cases hrep : rs with
        | nil => exact absurd hrep hRne
        | cons a l => simp [hrep]
      omega
    obtain ⟨r, hbind, hmem⟩ := rr_resolve_bind_some c rs hRne hRsome
    have h1 : (LoadBalancer.roundRobinLB c).Resolve rs
        = (some (some r), .roundRobinLB (roundRobin c rs.length).2) := by
      refine Prod.ext ?_ ?_
      · obtain ⟨y, hy, hid⟩ := Option.bind_eq_some.mp hbind
        have : y = some r := hid
        subst this
        exact hy
      · simp [LoadBalancer.Resolve]
    obtain ⟨w, hbindw, hmemw⟩ := rr_resolve_bind_some
      (roundRobin c rs.length).2 ps hP hPsome
    have h2 : (LoadBalancer.roundRobinLB (roundRobin c rs.length).2).Resolve ps
        = (some (some w),
           .roundRobinLB (roundRobin (roundRobin c rs.length).2 ps.length).2) := by
      refine Prod.ext ?_ ?_
      · obtain ⟨y, hy, hid⟩ := Option.bind_eq_some.mp hbindw
        have : y = some w := hid
        subst this
        exact hy
      · simp [LoadBalancer.Resolve]
    refine ⟨r, hmem, ?_, ?_, ?_⟩
    · simp [stmt.ROStmt, hsum, h1]
    · intro hconn
      refine ⟨w, hmemw, ?_, ?_⟩
      · simp [stmt.QueryContext, stmt.ROStmt, stmt.RWStmt, hsum, h1, h2, hconn]
      · simp [stmt.QueryRowContext, stmt.ROStmt, stmt.RWStmt, hsum, h1, h2, hconn]
    · intro hconn
      constructor
      · simp [stmt.QueryContext, stmt.ROStmt, stmt.RWStmt, hsum, h1, hconn]
      · simp [stmt.QueryRowContext, stmt.ROStmt, stmt.RWStmt, hsum, h1, hconn]
  · intro hwf
    subst hwf
    obtain ⟨w, hbindw, hmemw⟩ := rr_resolve_bind_some c ps hP hPsome
    have h2 : (LoadBalancer.roundRobinLB c).Resolve ps
        = (some (some w), .roundRobinLB (roundRobin c ps.length).2) := by
      refine Prod.ext ?_ ?_
      · obtain ⟨y, hy, hid⟩ := Option.bind_eq_some.mp hbindw
        have : y = some w := hid
        subst this
        exact hy
      · simp [LoadBalancer.Resolve]
    refine ⟨w, hmemw, ?_, ?_⟩
    · simp [stmt.QueryContext, stmt.RWStmt, h2]
    · simp [stmt.QueryRowContext, stmt.RWStmt, h2]

/-- C4 witness: one primary-bound and one replica-bound statement; the
driver oracle fails with a `net.Error` on the replica statement, and the
fallback clause is obtained by applying the theorem at this input. -/
theorem C4_stmt_query_connection_error_fallback_witness :
    ((stmt.mk (.roundRobinLB 0) [some ⟨1⟩] [some ⟨2⟩] false []).primaryStmts
        ≠ []) ∧
    ((stmt.mk (.roundRobinLB 0) [some ⟨1⟩] [some ⟨2⟩] false []).writeFlag
        = false) ∧
    (∃ r, some r ∈ (stmt.mk (.roundRobinLB 0) [some ⟨1⟩] [some ⟨2⟩] false
          []).replicaStmts ∧
      ((stmt.mk (.roundRobinLB 0) [some ⟨1⟩] [some ⟨2⟩] false []).ROStmt).1
        = some r ∧
      ((isDBConnectionError
          ((fun st => if st.id = 2 then QueryResult.mk 0 (some .netError)
            else QueryResult.mk 7 none) r).err = true →
        ∃ w, some w ∈ (stmt.mk (.roundRobinLB 0) [some ⟨1⟩] [some ⟨2⟩] false
            []).primaryStmts ∧
          ((stmt.mk (.roundRobinLB 0) [some ⟨1⟩] [some ⟨2⟩] false
              []).QueryContext
            (fun st => if st.id = 2 then QueryResult.mk 0 (some .netError)
              else QueryResult.mk 7 none)).1
            = some ((fun st => if st.id = 2 then QueryResult.mk 0 (some .netError)
                else QueryResult.mk 7 none) w, [r, w]) ∧
          ((stmt.mk (.roundRobinLB 0) [some ⟨1⟩] [some ⟨2⟩] false
              []).QueryRowContext
            (fun st => if st.id = 2 then QueryResult.mk 0 (some .netError)
              else QueryResult.mk 7 none)).1
            = some ((fun st => if st.id = 2 then QueryResult.mk 0 (some .netError)
                else QueryResult.mk 7 none) w, [r, w])) ∧
       (isDBConnectionError
          ((fun st => if st.id = 2 then QueryResult.mk 0 (some .netError)
            else QueryResult.mk 7 none) r).err = false →
        ((stmt.mk (.roundRobinLB 0) [some ⟨1⟩] [some ⟨2⟩] false
            []).QueryContext
          (fun st => if st.id = 2 then QueryResult.mk 0 (some .netError)
            else QueryResult.mk 7 none)).1
          = some ((fun st => if st.id = 2 then QueryResult.mk 0 (some .netError)
              else QueryResult.mk 7 none) r, [r]) ∧
        ((stmt.mk (.roundRobinLB 0) [some ⟨1⟩] [some ⟨2⟩] false
            []).QueryRowContext
          (fun st => if st.id = 2 then QueryResult.mk 0 (some .netError)
            else QueryResult.mk 7 none)).1
          = some ((fun st => if st.id = 2 then QueryResult.mk 0 (some .netError)
              else QueryResult.mk 7 none) r, [r])))) :=
  ⟨by decide, rfl,
    (C4_stmt_query_connection_error_fallback
      (stmt.mk (.roundRobinLB 0) [some ⟨1⟩] [some ⟨2⟩] false []) 0
      (fun st => if st.id = 2 then QueryResult.mk 0 (some .netError)
        else QueryResult.mk 7 none)
      rfl (by decide) (by decide)).1 rfl (by decide) (by decide)⟩

/-- `multierr.Combine` of a list of non-nil errors is nil exactly when the
list is empty. -/
theorem multierrCombine_eq_none (errs : List GoError) :
    multierrCombine errs = none ↔ errs = [] := by
  cases errs with
  | nil => simp [multierrCombine]
  | cons e tl => cases tl <;> simp [multierrCombine]

/-- Combining a non-empty list of errors yields some combined error. -/
theorem multierrCombine_ne_nil (errs : List GoError) (h : errs ≠ []) :
    ∃ ce, multierrCombine errs = some ce := by
  cases errs with
  | nil => exact absurd rfl h
  | cons e tl =>
    cases tl with
    | nil => exact ⟨_, rfl⟩
    | cons e2 tl2 => exact ⟨_, rfl⟩

/-- The components of a combined error are exactly the combined list. -/
theorem components_multierrCombine (errs : List GoError) :
    CombinedError.components (multierrCombine errs) = errs := by
  cases errs with
  | nil => rfl
  | cons e tl => cases tl <;> rfl

/-- On a resolver whose `totalConnection` matches its P primaries and R
replicas (as every complete constructor of part_032 establishes), a `Prepare`
whose per-handle sub-calls all succeed returns an aggregate statement holding
exactly the P primary-bound and R replica-bound driver statements, one per
physical handle in order, and no error; if any sub-call fails, `Prepare`
returns no statement together with a combined error.  `PrepareContext` is the
same fan-out. -/
theorem prepare_fanout_complete (db : sqlDB) (prep : SqlDB → Except GoError SqlStmt)
    (f : SqlDB → SqlStmt)
    (hT : db.totalConnection = db.primaries.length + db.replicas.length) :
    ((∀ d ∈ db.primaries ++ db.replicas, prep d = .ok (f d)) →
      db.Prepare prep = some (some
        (stmt.mk db.stmtLoadBalancer
          (db.primaries.map (fun d => some (f d)))
          (db.replicas.map (fun d => some (f d))) false []), none)) ∧
    ((∃ d ∈ db.primaries ++ db.replicas, ∃ e, prep d = .error e) →
      ∃ ce, db.Prepare prep = some (none, some ce)) ∧
    db.PrepareContext prep = db.Prepare prep := by
  have hguard : ¬ (db.primaries.length + db.replicas.length
      < db.totalConnection) := by omega
  refine ⟨?_, ?_, rfl⟩
  · intro hall
    have herrs : (List.range db.totalConnection).filterMap (fun i =>
        match db.prepareEach prep i with
        | some (.error e) => some e
        | _ => none) = [] := by
      rw [List.filterMap_eq_nil_iff]
      intro i hi
      rw [List.mem_range] at hi
      by_cases hip : i < db.primaries.length
      · have hmem : db.primaries[i] ∈ db.primaries ++ db.replicas :=
          List.mem_append_left _ (List.getElem_mem _)
        simp [sqlDB.prepareEach, hip, List.getElem?_eq_getElem hip,
          hall _ hmem]
      · have hir : i - db.primaries.length < db.replicas.length := by omega
        have hmem : db.replicas[i - db.primaries.length]
            ∈ db.primaries ++ db.replicas :=
          List.mem_append_right _ (List.getElem_mem _)
        simp [sqlDB.prepareEach, hip, List.getElem?_eq_getElem hir,
          hall _ hmem]
    have hps : (List.range db.primaries.length).map (fun i =>
        if i < db.totalConnection then
          ((db.primaries[i]?).map prep).bind Except.toOption
        else none) = db.primaries.map (fun d => some (f d)) := by
      apply List.ext_getElem
      · simp
      · intro j h1 h2
        simp only [List.getElem_map, List.getElem_range]
        have hjp : j < db.primaries.length := by
          simpa using h1
        have hmem : db.primaries[j] ∈ db.primaries ++ db.replicas :=
          List.mem_append_left _ (List.getElem_mem _)
        rw [if_pos (by omega), List.getElem?_eq_getElem hjp]
        simp [hall _ hmem, Except.toOption]
    have hrs : (List.range db.replicas.length).map (fun j =>
        if db.primaries.length + j < db.totalConnection then
          ((db.replicas[j]?).map prep).bind Except.toOption
        else none) = db.replicas.map (fun d => some (f d)) := by
      apply List.ext_getElem
      · simp
      · intro j h1 h2
        simp only [List.getElem_map, List.getElem_range]
        have hjr : j < db.replicas.length := by
          simpa using h1
        have hmem : db.replicas[j] ∈ db.primaries ++ db.replicas :=
          List.mem_append_right _ (List.getElem_mem _)
        rw [if_pos (by omega), List.getElem?_eq_getElem hjr]
        simp [hall _ hmem, Except.toOption]
    simp only [sqlDB.Prepare, if_neg hguard, doParallely, herrs,
      multierrCombine, hps, hrs]
  · intro hfail
    obtain ⟨d, hd, e, he⟩ := hfail
    have hidx : ∃ i, i ∈ List.range db.totalConnection ∧
        (match db.prepareEach prep i with
         | some (.error e) => some e
         | _ => none) = some e := by
      rcases List.mem_append.mp hd with hmem | hmem
      · obtain ⟨i, hi, hieq⟩ := List.mem_iff_getElem.mp hmem
        refine ⟨i, List.mem_range.mpr (by omega), ?_⟩
        simp [sqlDB.prepareEach, hi, List.getElem?_eq_getElem hi, hieq, he]
      · obtain ⟨j, hj, hjeq⟩ := List.mem_iff_getElem.mp hmem
        refine ⟨db.primaries.length + j, List.mem_range.mpr (by omega), ?_⟩
        have hnot : ¬ (db.primaries.length + j < db.primaries.length) := by
          omega
        simp [sqlDB.prepareEach, hnot, List.getElem?_eq_getElem hj, hjeq, he]
    obtain ⟨i, hi, hfn⟩ := hidx
    have hne : (List.range db.totalConnection).filterMap (fun i =>
        match db.prepareEach prep i with
        | some (.error e) => some e
        | _ => none) ≠ [] :=
      List.ne_nil_of_mem (List.mem_filterMap.mpr ⟨i, hi, hfn⟩)
    obtain ⟨ce, hce⟩ := multierrCombine_ne_nil _ hne
    refine ⟨ce, ?_⟩
    simp only [sqlDB.Prepare, if_neg hguard, doParallely, hce]

/-- C5: contrary to the claim, on a resolver built by `New` — which leaves
`totalConnection` at its zero value, the same slip reported under C1 —
`Prepare` fans out zero workers: even with a driver oracle that fails on
every handle it returns a nil error together with an aggregate statement
whose P + R statement slots are all nil, instead of one prepared statement
per physical handle with failures surfacing as errors.  This evaluates the
code at the failing input; for resolvers whose `totalConnection` equals
P + R the claimed fan-out behaviour is proved in `prepare_fanout_complete`. -/
theorem C5_new_resolver_prepare_skips_handles :
    ∃ db, New [WithPrimaryDBs [⟨0, 0, 0⟩], WithReplicaDBs [⟨1, 0, 0⟩]]
        = some db ∧
      db.primaries.length = 1 ∧ db.replicas.length = 1 ∧
      db.Prepare (fun _ => .error (.driverError 1))
        = some (some (stmt.mk (.roundRobinLB 0) [none] [none] false []),
            none) ∧
      db.PrepareContext (fun _ => .error (.driverError 1))
        = db.Prepare (fun _ => .error (.driverError 1)) := by
  exact ⟨_, rfl, rfl, rfl, rfl, rfl⟩

/-- C6: the parallel fan-out helper succeeds exactly when every invocation
succeeds, is a no-op success for `n = 0`, and on failure the combined error's
components are exactly the non-nil errors produced by the failing indices. -/
theorem C6_doParallely_spec (n : Nat) (fn : Nat → Option GoError) :
    (doParallely n fn = none ↔ ∀ i < n, fn i = none) ∧
    doParallely 0 fn = none ∧
    CombinedError.components (doParallely n fn)
      = (List.range n).filterMap fn := by
  refine ⟨?_, rfl, components_multierrCombine _⟩
  rw [doParallely, multierrCombine_eq_none, List.filterMap_eq_nil_iff]
  constructor
  · intro hall i hi
    exact hall i (List.mem_range.mpr hi)
  · intro hall i hi
    exact hall i (List.mem_range.mp hi)

/-- C6 witness: three workers, the middle one failing; the components of the
combined error are exactly that failure, obtained through the theorem. -/
theorem C6_doParallely_spec_witness :
    CombinedError.components
      (doParallely 3
        (fun i => if i = 1 then some (GoError.driverError 5) else none))
      = (List.range 3).filterMap
          (fun i => if i = 1 then some (GoError.driverError 5) else none) ∧
    (List.range 3).filterMap
        (fun i => if i = 1 then some (GoError.driverError 5) else none)
      = [GoError.driverError 5] :=
  ⟨(C6_doParallely_spec 3
      (fun i => if i = 1 then some (GoError.driverError 5) else none)).2.2,
    by decide⟩

/-- C7 counterexample: resolving over a single-handle list does not advance
the round-robin counter — the balancer state after the call is still
`roundRobinLB 0`, not the advanced `roundRobinLB 1` the claim's "after an
atomic counter advance" would produce. -/
theorem C7_single_handle_no_counter_advance :
    (LoadBalancer.roundRobinLB 0).Resolve [(⟨0, 0, 0⟩ : SqlDB)]
      = (some ⟨0, 0, 0⟩, .roundRobinLB 0) ∧
    (LoadBalancer.roundRobinLB 0 ≠ LoadBalancer.roundRobinLB 1) :=
  ⟨rfl, by simp⟩

/-- C7 amended: for `N ≥ 2` each `Resolve` atomically advances the counter
(modulo `2^64`) and returns the element at index `counter mod N` for the
advanced counter; for `N ≤ 1` it short-circuits to index 0 without touching
the counter; and starting from a zero counter, over `K < 2^64` sequential
selections on `N` handles the handle at each index is selected `⌊K/N⌋` or
`⌈K/N⌉` times. -/
theorem C7_round_robin_index_and_fairness :
    (∀ (c : Nat) (dbs : List SqlDB), 2 ≤ dbs.length →
      (LoadBalancer.roundRobinLB c).Resolve dbs
        = (dbs[((c + 1) % UINT64_MOD) % dbs.length]?,
           .roundRobinLB ((c + 1) % UINT64_MOD))) ∧
    (∀ (c : Nat) (dbs : List SqlDB), dbs.length ≤ 1 →
      (LoadBalancer.roundRobinLB c).Resolve dbs
        = (dbs[0]?, .roundRobinLB c)) ∧
    (∀ N K i, 1 ≤ N → K < UINT64_MOD → i < N →
      ((lbIterate (.roundRobinLB 0) (List.range N) K).1.count (some i)
          = K / N ∨
       (lbIterate (.roundRobinLB 0) (List.range N) K).1.count (some i)
          = (K + N - 1) / N)) := by
  refine ⟨?_, ?_, ?_⟩
  · intro c dbs h2
    simp only [LoadBalancer.Resolve, roundRobin]
    rw [if_neg (by omega : ¬ dbs.length ≤ 1)]
  · intro c dbs h1
    simp only [LoadBalancer.Resolve, roundRobin]
    rw [if_pos h1]
  · intro N K i hN hK hi
    exact rr_fairness N K i hN hK hi

/-- C7 witness: two handles, five selections from a zero counter; the first
resolve picks index `1 mod 2`, and handle 1 is selected `⌈5/2⌉ = 3` times
while the fairness disjunction is obtained from the theorem. -/
theorem C7_round_robin_index_and_fairness_witness :
    (2 ≤ ([⟨0, 0, 0⟩, ⟨1, 0, 0⟩] : List SqlDB).length) ∧
    (LoadBalancer.roundRobinLB 0).Resolve ([⟨0, 0, 0⟩, ⟨1, 0, 0⟩] : List SqlDB)
      = (([⟨0, 0, 0⟩, ⟨1, 0, 0⟩] : List SqlDB)[((0 + 1) % UINT64_MOD) % 2]?,
         .roundRobinLB ((0 + 1) % UINT64_MOD)) ∧
    (1 ≤ 2 ∧ 5 < UINT64_MOD ∧ 1 < 2) ∧
    ((lbIterate (.roundRobinLB 0) (List.range 2) 5).1.count (some 1) = 5 / 2 ∨
     (lbIterate (.roundRobinLB 0) (List.range 2) 5).1.count (some 1)
       = (5 + 2 - 1) / 2) :=
  ⟨by decide, C7_round_robin_index_and_fairness.1 0 _ (by decide),
    ⟨by decide, by decide, by decide⟩,
    C7_round_robin_index_and_fairness.2.2 2 5 1 (by decide) (by decide)
      (by decide)⟩

/-- C8 counterexample: the aggregate statement created by a transaction's
`PrepareContext` has its write-pin flag `false` (the Go composite literal in
tx.go never sets `writeFlag`), and a connection wrapper's `PrepareContext`
for a plain `SELECT` also yields a `false` write-pin flag — contradicting the
claim that the flag is always set to `true`. -/
theorem C8_pinned_statement_write_flag_false :
    (∃ s, tx.PrepareContext ⟨⟨0, 0, 0⟩⟩ (.ok ⟨5⟩) = .ok s ∧
      s.writeFlag = false) ∧
    (∃ s, conn.PrepareContext ⟨⟨0, 0, 0⟩⟩ (.ok ⟨6⟩) ("SELECT 1".toList)
        = .ok s ∧ s.writeFlag = false) :=
  ⟨⟨_, rfl, rfl⟩, ⟨_, rfl, rfl⟩⟩

/-- C8 amended: every aggregate statement created by a transaction's
`Prepare`/`PrepareContext` or `StmtContext` rebinding, or by a connection
wrapper's `PrepareContext`, owns exactly one underlying prepared statement,
keyed in the handle-to-statement mapping by the single pinned physical
handle; its write-pin flag, however, is `false` for transaction-created
statements and, for connection-created statements, is `true` exactly when
the uppercased query contains `RETURNING`. -/
theorem C8_pinned_statement_structure :
    (∀ (t : tx) (st : SqlStmt),
      t.PrepareContext (.ok st)
        = .ok (stmt.mk (.roundRobinLB 0) [some st] [] false
            [(t.sourceDB, st)])) ∧
    (∀ (t : tx) (s : stmt) (txBind : SqlStmt → SqlStmt) (base : SqlStmt),
      (s.stmtForDB t.sourceDB).1 = some base →
      t.StmtContext s txBind
        = some (stmt.mk (.roundRobinLB 0) [some (txBind base)] [] false
            [(t.sourceDB, txBind base)])) ∧
    (∀ (c : conn) (pst : SqlStmt) (q : List Char),
      c.PrepareContext (.ok pst) q
        = .ok (newSingleDBStmt c.sourceDB pst
            (goContains (goToUpper q) ("RETURNING".toList)))) ∧
    (∀ (sourceDB : SqlDB) (st : SqlStmt) (wf : Bool),
      newSingleDBStmt sourceDB st wf
        = stmt.mk (.roundRobinLB 0) [some st] [] wf [(sourceDB, st)]) := by
  refine ⟨fun t st => rfl, ?_, fun c pst q => rfl, fun sourceDB st wf => rfl⟩
  intro t s txBind base hbase
  simp only [tx.StmtContext, hbase]

/-- C8 witness: a concrete single-statement aggregate keyed at handle 0; its
`stmtForDB` lookup hits, and the rebinding produced by `StmtContext` through
the theorem owns exactly the rebound statement. -/
theorem C8_pinned_statement_structure_witness :
    (((stmt.mk (.roundRobinLB 0) [some ⟨7⟩] [] false
        [(⟨0, 0, 0⟩, ⟨7⟩)]).stmtForDB (⟨0, 0, 0⟩ : SqlDB)).1 = some ⟨7⟩) ∧
    (tx.StmtContext ⟨⟨0, 0, 0⟩⟩
        (stmt.mk (.roundRobinLB 0) [some ⟨7⟩] [] false [(⟨0, 0, 0⟩, ⟨7⟩)])
        (fun st => ⟨st.id + 100⟩)
      = some (stmt.mk (.roundRobinLB 0)
          [some ((fun st => (⟨st.id + 100⟩ : SqlStmt)) (⟨7⟩ : SqlStmt))] []
          false
          [((⟨0, 0, 0⟩ : SqlDB),
            (fun st => (⟨st.id + 100⟩ : SqlStmt)) (⟨7⟩ : SqlStmt))])) :=
  ⟨rfl,
    C8_pinned_statement_structure.2.1 ⟨⟨0, 0, 0⟩⟩
      (stmt.mk (.roundRobinLB 0) [some ⟨7⟩] [] false [(⟨0, 0, 0⟩, ⟨7⟩)])
      (fun st => ⟨st.id + 100⟩) ⟨7⟩ rfl⟩

/-- C9 counterexample: on a resolver with two primaries whose drivers differ,
`Driver()` goes through the load-balanced `ReadWrite()` and returns the
second primary's driver on the first call, not the first primary's — while
`Conn` and `Stats` do use the first primary. -/
theorem C9_driver_is_load_balanced_not_first :
    ((sqlDB.mk [⟨0, 10, 20⟩, ⟨1, 11, 21⟩] [] 2 (.roundRobinLB 0)
        (.roundRobinLB 0) DefaultQueryTypeChecker.Check).Driver).1
      = some 11 ∧
    ((sqlDB.mk [⟨0, 10, 20⟩, ⟨1, 11, 21⟩] [] 2 (.roundRobinLB 0)
          (.roundRobinLB 0) DefaultQueryTypeChecker.Check).primaries[0]?).map
        SqlDB.driver = some 10 ∧
    (some 11 ≠ some 10) := by
  refine ⟨?_, rfl, by decide⟩
  show (([(⟨0, 10, 20⟩ : SqlDB), ⟨1, 11, 21⟩] :
      List SqlDB)[(roundRobin 0 2).1]?).map SqlDB.driver = some 11
  rfl

/-- C9 amended: `Conn` and `Stats` forward to the first primary regardless of
the load balancer, while `Driver` forwards to the primary selected by the
handle load balancer (`ReadWrite()`); only when there is exactly one primary
does `Driver` coincide with the first primary's driver. -/
theorem C9_single_handle_accessors (db : sqlDB) :
    db.Conn = db.primaries[0]? ∧
    db.Stats = (db.primaries[0]?).map SqlDB.stats ∧
    (db.Driver).1 = ((db.ReadWrite).1).map SqlDB.driver ∧
    (db.primaries.length = 1 →
      (db.Driver).1 = (db.primaries[0]?).map SqlDB.driver) := by
  refine ⟨rfl, rfl, rfl, ?_⟩
  intro h1
  have hro : ((db.loadBalancer.Resolve db.primaries).1) = db.primaries[0]? := by
    cases hlb : db.loadBalancer with
    | roundRobinLB c =>
      simp only [LoadBalancer.Resolve, roundRobin]
      rw [if_pos (by omega : db.primaries.length ≤ 1)]
    | randomLB rng k =>
      simp only [LoadBalancer.Resolve]
      rw [if_neg (by omega : ¬ db.primaries.length = 0), h1, Nat.mod_one]
  show ((db.loadBalancer.Resolve db.primaries).1).map SqlDB.driver
      = (db.primaries[0]?).map SqlDB.driver
  rw [hro]

/-- C9 witness: a single-primary resolver where `Driver` does return the
first primary's driver, through the amended theorem. -/
theorem C9_single_handle_accessors_witness :
    ((sqlDB.mk [⟨0, 10, 20⟩] [] 1 (.roundRobinLB 0) (.roundRobinLB 0)
        DefaultQueryTypeChecker.Check).primaries.length = 1) ∧
    ((sqlDB.mk [⟨0, 10, 20⟩] [] 1 (.roundRobinLB 0) (.roundRobinLB 0)
        DefaultQueryTypeChecker.Check).Driver).1
      = ((sqlDB.mk [⟨0, 10, 20⟩] [] 1 (.roundRobinLB 0) (.roundRobinLB 0)
          DefaultQueryTypeChecker.Check).primaries[0]?).map SqlDB.driver :=
  ⟨rfl,
    (C9_single_handle_accessors
      (sqlDB.mk [⟨0, 10, 20⟩] [] 1 (.roundRobinLB 0) (.roundRobinLB 0)
        DefaultQueryTypeChecker.Check)).2.2.2 rfl⟩

/-- C10: contrary to the claim, calling `Open` with the empty data-source
string is not rejected: splitting any string on `';'` yields at least one
(possibly empty) descriptor, so the emptiness guard is unreachable and `Open`
builds a one-primary resolver over the empty DSN with a nil error whenever
the driver-level open succeeds; `OpenMultiPrimary` behaves the same for its
primary list.  This evaluates the code at the failing input. -/
theorem C10_open_empty_string_not_rejected :
    (∃ db, Open (fun _ => .ok ⟨0, 0, 0⟩) [] = (some db, none) ∧
      db.primaries.length = 1 ∧ db.replicas = [] ∧ db.totalConnection = 1) ∧
    (∃ db, OpenMultiPrimary (fun _ => .ok ⟨0, 0, 0⟩) [] []
        = (some db, none) ∧ db.primaries.length = 1) :=
  ⟨⟨_, rfl, rfl, rfl, rfl⟩, ⟨_, rfl, rfl⟩⟩

end dbresolver
